import Mathlib

/-!
# cloudctl `cmd/cluster.go`: cluster request translation and orchestration

A shallow embedding of `src/cmd/cluster.go`.  The commands talk to two remote
services (`metal`, `gardener`), to a printer, to standard output and to an
interactive prompt.  All of these are collaborators whose code lives outside
the file; they are gathered in a `World` that is threaded through the
commands as explicit state, and every interaction is recorded in a trace.
-/

namespace Cloudctl

set_option linter.unusedTactic false

/-! ## Data model -/

/-- Go `error` value, identified by its message. -/
structure GoError where
  msg : String
deriving DecidableEq, Repr

/-- Request of `metalgo.NetworkAcquireRequest`, with the fields the source sets. -/
structure NetworkAcquireRequest where
  Description : String
  Name : String
  PartitionID : String
  ProjectID : String
deriving DecidableEq, Repr

/-- The network carried by an acquire response; only `Prefixes` is read. -/
structure V1Network where
  Prefixes : List String
deriving DecidableEq, Repr

/-- Response of `metal.NetworkAcquire`; only `Network` is read. -/
structure NetworkAcquireResponse where
  Network : V1Network
deriving DecidableEq, Repr

/-- Entry of `api.ShootCreateRequest.Workers`. -/
structure Worker where
  Name : String
  MachineType : String
  AutoScalerMin : Int
  AutoScalerMax : Int
  MaxSurge : Int
  MaxUnavailable : Int
  VolumeType : String
  VolumeSize : String
deriving DecidableEq, Repr

/-- Kubernetes settings of a create request (`api.Kubernetes`). -/
structure Kubernetes where
  AllowPrivilegedContainers : Bool
  Version : String
deriving DecidableEq, Repr

/-- Auto-update switches of the maintenance policy (`api.MaintenanceAutoUpdate`). -/
structure MaintenanceAutoUpdate where
  KubernetesVersion : Bool
  MachineImage : Bool
deriving DecidableEq, Repr

/-- Daily maintenance window (`api.MaintenanceTimeWindow`). -/
structure MaintenanceTimeWindow where
  Begin : String
  End : String
deriving DecidableEq, Repr

/-- Maintenance policy (`api.Maintenance`); both fields are pointers in Go. -/
structure Maintenance where
  AutoUpdate : Option MaintenanceAutoUpdate
  TimeWindow : Option MaintenanceTimeWindow
deriving DecidableEq, Repr

/-- The document handed to `gardener.CreateShoot` (`api.ShootCreateRequest`),
with the fields the source sets.  `Description` and `Purpose` are pointers. -/
structure ShootCreateRequest where
  CreatedBy : String
  Tenant : String
  Owner : String
  ProjectID : String
  Name : String
  Description : Option String
  Purpose : Option String
  LoadBalancerProvider : String
  MachineImage : String
  FirewallImage : String
  FirewallSize : String
  Workers : List Worker
  Kubernetes : Kubernetes
  Maintenance : Maintenance
  NodeNetwork : String
  AdditionalNetworks : List String
  Zones : List String
deriving DecidableEq, Repr

/-- A cluster record returned by the lifecycle service.  Its type is declared
outside `cluster.go`; the commands only pass it on to a printer. -/
structure Shoot where
  raw : String
deriving DecidableEq, Repr

/-- The answer of `gardener.ShootConstraints`, passed on to a printer. -/
structure Constraints where
  KubernetesVersions : List String
  Partitions : List String
deriving DecidableEq, Repr

/-- Values read through `viper`: one field per flag registered in `init`. -/
structure Flags where
  name : String
  description : String
  purpose : String
  owner : String
  project : String
  partition : String
  version : String
  minsize : Int
  maxsize : Int
  maxsurge : Int
  maxunavailable : Int
  labels : List String
  externalNetworks : List String
  allowprivileged : Bool
deriving DecidableEq, Repr

/-- The flag defaults registered in `init` (lines 84-97). -/
def defaultFlags : Flags where
  name := ""
  description := ""
  purpose := "production"
  owner := ""
  project := ""
  partition := "nbg-w8101"
  version := "1.14.3"
  minsize := 1
  maxsize := 1
  maxsurge := 1
  maxunavailable := 1
  labels := []
  externalNetworks := ["internet"]
  allowprivileged := false

/-- The flags marked required in `init` (lines 99-103). -/
def requiredFlags : List String :=
  ["name", "description", "owner", "partition", "project"]

/-- Constants of the packages `api` and `pkg`, which `cluster.go` reads but
which are declared elsewhere; they are parameters of the embedding.
`DefaultMachineTypesOfPartition` is a Go map of maps. -/
structure Constants where
  DefaultLoadBalancerProvider : String
  DefaultMachineImage : String
  DefaultFirewallImage : String
  DefaultVolumeType : String
  DefaultVolumeSize : String
  DefaultMachineTypesOfPartition : String → Option (String → Option String)

/-- Go indexing `m[partition][role]` of a map of maps of strings: a missing key
yields the zero value, and so does indexing the missing (nil) inner map. -/
def machineTypeOf (m : String → Option (String → Option String))
    (partition role : String) : String :=
  match m partition with
  | none => ""
  | some inner =>
    match inner role with
    | none => ""
    | some t => t

/-! ## Collaborators and traces -/

/-- Modelled from the spec: how a call of `helper.Prompt` ends.  Its code is not
part of `cluster.go`, which calls it as a statement and reads no result (line
229).  The spec places the decision inside the collaborator: `confirmed` is the
call returning to the command once the confirmation is given, `declined` is the
call not returning, the invocation ending inside the collaborator. -/
inductive Confirmation where
  | confirmed
  | declined
deriving DecidableEq, Repr

/-- A value handed to a printer (`interface{}` in Go). -/
inductive Printable where
  | shoot (s : Shoot)
  | shoots (l : List Shoot)
  | constraints (c : Constraints)
deriving DecidableEq, Repr

/-- One interaction of a command with a collaborator. -/
inductive Call where
  | NewGardener (kubeconfig : String)
  | LogFatal (err : GoError)
  | NetworkAcquire (nar : NetworkAcquireRequest)
  | CreateShoot (scr : ShootCreateRequest)
  | ListShoots
  | GetShoot (uid : String)
  | DeleteShoot (uid : String)
  | ShootCredentials (uid : String)
  | ShootConstraints
  | Print (v : Printable)
  | YAMLPrint (v : Printable)
  | Println (s : String)
  | Prompt (msg : String) (answer : Confirmation)
deriving DecidableEq, Repr

/-- The calls that go to one of the two remote services: the requests of the
`metal` client and of the `gardener` client.  Building the client from the
kubeconfig, logging, printing and prompting are not among them. -/
def Call.isRemote : Call → Bool
  | .NewGardener _ => false
  | .LogFatal _ => false
  | .NetworkAcquire _ => true
  | .CreateShoot _ => true
  | .ListShoots => true
  | .GetShoot _ => true
  | .DeleteShoot _ => true
  | .ShootCredentials _ => true
  | .ShootConstraints => true
  | .Print _ => false
  | .YAMLPrint _ => false
  | .Println _ => false
  | .Prompt _ _ => false

/-- A trace entry: the call and the error it returned, if any. -/
structure Step where
  call : Call
  failed : Option GoError
deriving DecidableEq, Repr

/-- The collaborators of the commands over a world state `σ`: `g.NewGardener`,
the `metal` client, the `gardener` client, `printer`, `output.YAMLPrinter`,
`fmt.Println` and `helper.Prompt`. -/
structure World (σ : Type) where
  NewGardener : String → σ → Option GoError × σ
  NetworkAcquire : NetworkAcquireRequest → σ → Except GoError NetworkAcquireResponse × σ
  CreateShoot : ShootCreateRequest → σ → Except GoError Shoot × σ
  ListShoots : σ → Except GoError (List Shoot) × σ
  GetShoot : String → σ → Except GoError Shoot × σ
  DeleteShoot : String → σ → Except GoError Shoot × σ
  ShootCredentials : String → σ → Except GoError String × σ
  ShootConstraints : σ → Except GoError Constraints × σ
  Print : Printable → σ → Option GoError × σ
  YAMLPrint : Printable → σ → Option GoError × σ
  Println : String → σ → Option GoError × σ
  Prompt : String → σ → Confirmation × σ

/-- What a command leaves behind: the returned error (`none` is Go's `nil`),
the interactions in the order they happened, the final world state, and
whether the process ended inside a collaborator before the command returned
(`log.Fatal`, a prompt that does not return); `err` is then no returned value
and is left `none`. -/
structure Run (σ : Type) where
  err : Option GoError
  trace : List Step
  state : σ
  exited : Bool

/-- The remote calls of a trace, in order. -/
def remoteCalls (t : List Step) : List Call :=
  (t.filter (fun st => st.call.isRemote)).map (fun st => st.call)

/-! ## The commands -/

/-- Source `clusterID` (lines 262-270): the pair `(string, error)`. -/
def clusterID (verb : String) (args : List String) : String × Option GoError :=
  match args with
  | [] => ("", some ⟨"cluster " ++ verb ++ " requires clusterID as argument"⟩)
  | [a] => (a, none)
  | _ :: _ :: _ =>
    ("", some ⟨"cluster " ++ verb ++ " requires exactly one clusterID as argument"⟩)

/-- The request literal built in `clusterCreate` (lines 131-137). -/
def nar (viper : Flags) : NetworkAcquireRequest where
  Description := viper.description
  Name := viper.name
  PartitionID := viper.partition
  ProjectID := viper.project

/-- The document literal built in `clusterCreate` (lines 149-190); `nodeNetwork0`
stands for `nodeNetwork.Prefixes[0]`. -/
def scr (c : Constants) (viper : Flags) (nodeNetwork0 : String) : ShootCreateRequest where
  CreatedBy := viper.owner
  Tenant := viper.owner
  Owner := viper.owner
  ProjectID := viper.project
  Name := viper.name
  Description := some viper.description
  Purpose := some viper.purpose
  LoadBalancerProvider := c.DefaultLoadBalancerProvider
  MachineImage := c.DefaultMachineImage
  FirewallImage := c.DefaultFirewallImage
  FirewallSize := machineTypeOf c.DefaultMachineTypesOfPartition viper.partition "firewall"
  Workers := [
    { Name := "default-worker"
      MachineType := machineTypeOf c.DefaultMachineTypesOfPartition viper.partition "worker"
      AutoScalerMin := viper.minsize
      AutoScalerMax := viper.maxsize
      MaxSurge := viper.maxsurge
      MaxUnavailable := viper.maxunavailable
      VolumeType := c.DefaultVolumeType
      VolumeSize := c.DefaultVolumeSize }]
  Kubernetes :=
    { AllowPrivilegedContainers := viper.allowprivileged
      Version := viper.version }
  Maintenance :=
    { AutoUpdate := some { KubernetesVersion := false, MachineImage := false }
      TimeWindow := some { Begin := "220000+0100", End := "233000+0100" } }
  NodeNetwork := nodeNetwork0
  AdditionalNetworks := viper.externalNetworks
  Zones := [viper.partition]

/-- The fixed error of `clusterCreate` (line 146). -/
def prefixesError : GoError :=
  ⟨"node network creation failed, no or more than one entry for prefixes was/were acquired"⟩

/-- Source `clusterCreate` (lines 121-197). -/
def clusterCreate {σ : Type} (w : World σ) (c : Constants) (viper : Flags) (s : σ) : Run σ :=
  match w.NetworkAcquire (nar viper) s with
  | (.error err, s1) => ⟨some err, [⟨.NetworkAcquire (nar viper), some err⟩], s1, false⟩
  | (.ok nw, s1) =>
    let nodeNetwork := nw.Network
    if h : nodeNetwork.Prefixes.length ≠ 1 then
      ⟨some prefixesError, [⟨.NetworkAcquire (nar viper), none⟩], s1, false⟩
    else
      let doc := scr c viper nodeNetwork.Prefixes[0]
      match w.CreateShoot doc s1 with
      | (.error err, s2) =>
        ⟨some err, [⟨.NetworkAcquire (nar viper), none⟩, ⟨.CreateShoot doc, some err⟩],
          s2, false⟩
      | (.ok shoot, s2) =>
        match w.Print (.shoot shoot) s2 with
        | (perr, s3) =>
          ⟨perr, [⟨.NetworkAcquire (nar viper), none⟩, ⟨.CreateShoot doc, none⟩,
                  ⟨.Print (.shoot shoot), perr⟩], s3, false⟩

/-- Source `clusterList` (lines 199-205). -/
def clusterList {σ : Type} (w : World σ) (s : σ) : Run σ :=
  match w.ListShoots s with
  | (.error err, s1) => ⟨some err, [⟨.ListShoots, some err⟩], s1, false⟩
  | (.ok shoots, s1) =>
    match w.Print (.shoots shoots) s1 with
    | (perr, s2) =>
      ⟨perr, [⟨.ListShoots, none⟩, ⟨.Print (.shoots shoots), perr⟩], s2, false⟩

/-- Source `clusterCredentials` (lines 206-217); the result of `fmt.Println` is
discarded. -/
def clusterCredentials {σ : Type} (w : World σ) (args : List String) (s : σ) : Run σ :=
  match clusterID "credentials" args with
  | (_, some err) => ⟨some err, [], s, false⟩
  | (ci, none) =>
    match w.ShootCredentials ci s with
    | (.error err, s1) => ⟨some err, [⟨.ShootCredentials ci, some err⟩], s1, false⟩
    | (.ok credentials, s1) =>
      match w.Println credentials s1 with
      | (perr, s2) =>
        ⟨none, [⟨.ShootCredentials ci, none⟩, ⟨.Println credentials, perr⟩], s2, false⟩

/-- The prompt text of `clusterDelete` (line 229). -/
def deletePrompt : String := "Press Enter to delete above cluster."

/-- Source `clusterDelete` (lines 219-235).  The first `printer.Print` is a
statement whose result is discarded.  `helper.Prompt` is a statement too: no
answer is read, and line 230 runs exactly when the call returns, so a prompt
that does not return ends the run there.  `DeleteShoot` receives `args[0]`,
which exists because `clusterID` returned no error. -/
def clusterDelete {σ : Type} (w : World σ) (args : List String) (s : σ) : Run σ :=
  match clusterID "delete" args with
  | (_, some err) => ⟨some err, [], s, false⟩
  | (ci, none) =>
    match w.GetShoot ci s with
    | (.error err, s1) => ⟨some err, [⟨.GetShoot ci, some err⟩], s1, false⟩
    | (.ok shoot, s1) =>
      match w.Print (.shoot shoot) s1 with
      | (perr1, s2) =>
        match w.Prompt deletePrompt s2 with
        | (.declined, s3) =>
          ⟨none, [⟨.GetShoot ci, none⟩, ⟨.Print (.shoot shoot), perr1⟩,
                  ⟨.Prompt deletePrompt .declined, none⟩], s3, true⟩
        | (.confirmed, s3) =>
          let args0 := args.headD ""
          match w.DeleteShoot args0 s3 with
          | (.error err, s4) =>
            ⟨some err, [⟨.GetShoot ci, none⟩, ⟨.Print (.shoot shoot), perr1⟩,
                        ⟨.Prompt deletePrompt .confirmed, none⟩,
                        ⟨.DeleteShoot args0, some err⟩], s4, false⟩
          | (.ok shoot2, s4) =>
            match w.Print (.shoot shoot2) s4 with
            | (perr2, s5) =>
              ⟨perr2, [⟨.GetShoot ci, none⟩, ⟨.Print (.shoot shoot), perr1⟩,
                       ⟨.Prompt deletePrompt .confirmed, none⟩,
                       ⟨.DeleteShoot args0, none⟩, ⟨.Print (.shoot shoot2), perr2⟩],
                s5, false⟩

/-- Source `clusterDescribe` (lines 236-246). -/
def clusterDescribe {σ : Type} (w : World σ) (args : List String) (s : σ) : Run σ :=
  match clusterID "describe" args with
  | (_, some err) => ⟨some err, [], s, false⟩
  | (ci, none) =>
    match w.GetShoot ci s with
    | (.error err, s1) => ⟨some err, [⟨.GetShoot ci, some err⟩], s1, false⟩
    | (.ok shoot, s1) =>
      match w.YAMLPrint (.shoot shoot) s1 with
      | (perr, s2) =>
        ⟨perr, [⟨.GetShoot ci, none⟩, ⟨.YAMLPrint (.shoot shoot), perr⟩], s2, false⟩

/-- Source `clusterInputs` (lines 253-260). -/
def clusterInputs {σ : Type} (w : World σ) (s : σ) : Run σ :=
  match w.ShootConstraints s with
  | (.error err, s1) => ⟨some err, [⟨.ShootConstraints, some err⟩], s1, false⟩
  | (.ok sc, s1) =>
    match w.YAMLPrint (.constraints sc) s1 with
    | (perr, s2) =>
      ⟨perr, [⟨.ShootConstraints, none⟩, ⟨.YAMLPrint (.constraints sc), perr⟩], s2, false⟩

/-- Source `initGardener` (lines 113-119): the steps it takes, the world state
after them, and whether `log.Fatal` ended the process.  `kubeconfig` is a
package variable set outside `cluster.go`. -/
def initGardener {σ : Type} (w : World σ) (kubeconfig : String) (s : σ) :
    List Step × σ × Bool :=
  match w.NewGardener kubeconfig s with
  | (some err, s0) => ([⟨.NewGardener kubeconfig, some err⟩, ⟨.LogFatal err, none⟩], s0, true)
  | (none, s0) => ([⟨.NewGardener kubeconfig, none⟩], s0, false)

/-- The sub-commands registered on `clusterCmd` (lines 23-80, 105-110), with
what each `RunE` hands on: `args` for the identifier-based ones. -/
inductive Command where
  | create
  | list
  | delete (args : List String)
  | describe (args : List String)
  | credentials (args : List String)
  | inputs
deriving DecidableEq, Repr

/-- The function each `RunE` returns the result of, after `initGardener`. -/
def Command.body {σ : Type} (w : World σ) (c : Constants) (viper : Flags) (cmd : Command)
    (s : σ) : Run σ :=
  match cmd with
  | .create => clusterCreate w c viper s
  | .list => clusterList w s
  | .delete args => clusterDelete w args s
  | .describe args => clusterDescribe w args s
  | .credentials args => clusterCredentials w args s
  | .inputs => clusterInputs w s

/-- The `RunE` of the sub-commands (lines 26-29, 37-40, 47-50, 56-59, 65-68,
75-78): `initGardener()`, then the command function, unless `log.Fatal` ended
the process. -/
def runE {σ : Type} (w : World σ) (c : Constants) (viper : Flags) (kubeconfig : String)
    (cmd : Command) (s : σ) : Run σ :=
  match initGardener w kubeconfig s with
  | (t, s0, true) => ⟨none, t, s0, true⟩
  | (t, s0, false) =>
    ⟨(cmd.body w c viper s0).err, t ++ (cmd.body w c viper s0).trace,
      (cmd.body w c viper s0).state, (cmd.body w c viper s0).exited⟩

/-! ## Sample worlds used to evaluate the commands -/

/-- Sample constants with one known partition. -/
def sampleConstants : Constants where
  DefaultLoadBalancerProvider := "metallb"
  DefaultMachineImage := "ubuntu"
  DefaultFirewallImage := "firewall-1"
  DefaultVolumeType := "storage_1"
  DefaultVolumeSize := "50Gi"
  DefaultMachineTypesOfPartition := fun p =>
    if p = "nbg-w8101" then
      some (fun r =>
        if r = "worker" then some "c1-xlarge-x86"
        else if r = "firewall" then some "c1-xlarge-x86" else none)
    else none

/-- The create parameters of the spec scenario: the five required flags set,
everything else at its default. -/
def demoFlags : Flags :=
  { defaultFlags with
    name := "demo", description := "d", owner := "alice", project := "p1",
    partition := "nbg-w8101" }

/-- A world without state in which every call succeeds: network acquisition
yields the given prefixes, and the prompt ends as given. -/
def okWorld (prefixes : List String) (answer : Confirmation) : World Unit where
  NewGardener := fun _ s => (none, s)
  NetworkAcquire := fun _ s => (.ok ⟨⟨prefixes⟩⟩, s)
  CreateShoot := fun scr s => (.ok ⟨scr.Name⟩, s)
  ListShoots := fun s => (.ok [], s)
  GetShoot := fun uid s => (.ok ⟨uid⟩, s)
  DeleteShoot := fun uid s => (.ok ⟨uid⟩, s)
  ShootCredentials := fun uid s => (.ok uid, s)
  ShootConstraints := fun s => (.ok ⟨[], []⟩, s)
  Print := fun _ s => (none, s)
  YAMLPrint := fun _ s => (none, s)
  Println := fun _ s => (none, s)
  Prompt := fun _ s => (answer, s)

/-- A world without state in which `NetworkAcquire` and `DeleteShoot` fail with
the given error and every other call succeeds. -/
def failWorld (e : GoError) : World Unit where
  NewGardener := fun _ s => (none, s)
  NetworkAcquire := fun _ s => (.error e, s)
  CreateShoot := fun scr s => (.ok ⟨scr.Name⟩, s)
  ListShoots := fun s => (.ok [], s)
  GetShoot := fun uid s => (.ok ⟨uid⟩, s)
  DeleteShoot := fun _ s => (.error e, s)
  ShootCredentials := fun uid s => (.ok uid, s)
  ShootConstraints := fun s => (.ok ⟨[], []⟩, s)
  Print := fun _ s => (none, s)
  YAMLPrint := fun _ s => (none, s)
  Println := fun _ s => (none, s)
  Prompt := fun _ s => (.confirmed, s)

/-- A world whose state counts the calls of `printer.Print`: the first one fails
with "write failed", later ones succeed; every remote call succeeds. -/
def printFailsWorld : World Nat where
  NewGardener := fun _ n => (none, n)
  NetworkAcquire := fun _ n => (.ok ⟨⟨["10.0.0.0/22"]⟩⟩, n)
  CreateShoot := fun scr n => (.ok ⟨scr.Name⟩, n)
  ListShoots := fun n => (.ok [], n)
  GetShoot := fun uid n => (.ok ⟨uid⟩, n)
  DeleteShoot := fun uid n => (.ok ⟨uid⟩, n)
  ShootCredentials := fun uid n => (.ok uid, n)
  ShootConstraints := fun n => (.ok ⟨[], []⟩, n)
  Print := fun _ n => (if n = 0 then some ⟨"write failed"⟩ else none, n + 1)
  YAMLPrint := fun _ n => (none, n)
  Println := fun _ n => (none, n)
  Prompt := fun _ n => (.confirmed, n)

/-- The scenario parameters with the required name given as the empty string,
as `--name ""` sets it. -/
def emptyNameFlags : Flags :=
  { demoFlags with name := "" }

/-- The scenario parameters with a partition the sample registry does not know. -/
def unknownPartitionFlags : Flags :=
  { demoFlags with partition := "fra-equ01" }

/-! ## Theorems -/

/-- C4: `clusterID verb args` returns an error exactly when `args` does not have
one entry (so for `[]` and for `["a", "b"]` with verb `delete`); for a single
entry it returns that entry unchanged and no error; and whenever it returns an
error the identifier it returns is the empty string. -/
theorem clusterID_error_iff (verb : String) (args : List String) :
    ((clusterID verb args).2.isSome ↔ args.length ≠ 1) ∧
    (∀ a, clusterID verb [a] = (a, none)) ∧
    ((clusterID verb args).2.isSome → (clusterID verb args).1 = "") ∧
    (clusterID "delete" []).2.isSome ∧ (clusterID "delete" ["a", "b"]).2.isSome := by
  refine ⟨?_, fun a => rfl, ?_, rfl, rfl⟩
  · match args with
    | [] => simp [clusterID]
    | [a] => simp [clusterID]
    | _ :: _ :: _ => simp [clusterID]
  · match args with
    | [] => simp [clusterID]
    | [a] => simp [clusterID]
    | _ :: _ :: _ => simp [clusterID]

/-- Evaluation of C4 on two and on one argument. -/
theorem clusterID_error_iff_witness :
    (clusterID "delete" ["a", "b"]).1 = "" ∧ clusterID "describe" ["c1"] = ("c1", none) :=
  ⟨(clusterID_error_iff "delete" ["a", "b"]).2.2.1 rfl,
   (clusterID_error_iff "describe" ["c1"]).2.1 "c1"⟩

/-- An argument list that does not have exactly one entry makes `clusterID`
return an error. -/
theorem clusterID_of_length_ne_one (verb : String) (args : List String)
    (h : args.length ≠ 1) : ∃ e, clusterID verb args = ("", some e) := by
  match args, h with
  | [], _ => exact ⟨_, rfl⟩
  | [a], h => simp at h
  | _ :: _ :: _, _ => exact ⟨_, rfl⟩

/-- C5: with zero or with two or more arguments, each of `clusterDelete`,
`clusterDescribe` and `clusterCredentials` returns the usage error of
`clusterID` and interacts with no collaborator at all: its trace is empty, so
no `GetShoot`, `DeleteShoot` or `ShootCredentials` call is issued, and the
world is left as it was. -/
theorem identifier_commands_usage_error {σ : Type} (w : World σ) (args : List String) (s : σ)
    (h : args.length ≠ 1) :
    ((clusterDelete w args s).err.isSome ∧
      (clusterDelete w args s).err = (clusterID "delete" args).2 ∧
      (clusterDelete w args s).trace = [] ∧ (clusterDelete w args s).state = s) ∧
    ((clusterDescribe w args s).err.isSome ∧
      (clusterDescribe w args s).err = (clusterID "describe" args).2 ∧
      (clusterDescribe w args s).trace = [] ∧ (clusterDescribe w args s).state = s) ∧
    ((clusterCredentials w args s).err.isSome ∧
      (clusterCredentials w args s).err = (clusterID "credentials" args).2 ∧
      (clusterCredentials w args s).trace = [] ∧ (clusterCredentials w args s).state = s) := by
  obtain ⟨e1, h1⟩ := clusterID_of_length_ne_one "delete" args h
  obtain ⟨e2, h2⟩ := clusterID_of_length_ne_one "describe" args h
  obtain ⟨e3, h3⟩ := clusterID_of_length_ne_one "credentials" args h
  simp [clusterDelete, clusterDescribe, clusterCredentials, h1, h2, h3]

/-- Evaluation of C5 on two arguments, in a world where every call would succeed. -/
theorem identifier_commands_usage_error_witness :
    (clusterDelete (okWorld [] .confirmed) ["a", "b"] ()).trace = [] ∧
    (clusterDescribe (okWorld [] .confirmed) ["a", "b"] ()).trace = [] ∧
    (clusterCredentials (okWorld [] .confirmed) ["a", "b"] ()).trace = [] :=
  have h := identifier_commands_usage_error (okWorld [] .confirmed) ["a", "b"] () (by decide)
  ⟨h.1.2.2.1, h.2.1.2.2.1, h.2.2.2.2.1⟩

/-- C1: when network acquisition succeeds with a network of zero or of two or
more prefixes, `clusterCreate` returns the fixed error "node network creation
failed, no or more than one entry for prefixes was/were acquired", the remote
calls it made are exactly the one `NetworkAcquire` call, and no `CreateShoot`
step occurs in its trace. -/
theorem clusterCreate_prefixes_error {σ : Type} (w : World σ) (c : Constants) (viper : Flags)
    (s s1 : σ) (nw : NetworkAcquireResponse)
    (hacq : w.NetworkAcquire (nar viper) s = (.ok nw, s1))
    (h : nw.Network.Prefixes.length ≠ 1) :
    (clusterCreate w c viper s).err = some
      ⟨"node network creation failed, no or more than one entry for prefixes was/were acquired"⟩ ∧
    remoteCalls (clusterCreate w c viper s).trace = [.NetworkAcquire (nar viper)] ∧
    (∀ st ∈ (clusterCreate w c viper s).trace, ∀ doc, st.call ≠ .CreateShoot doc) := by
  simp [clusterCreate, hacq, h, prefixesError, remoteCalls, Call.isRemote]

/-- Evaluation of C1 on an acquisition that yields no prefix and on one that
yields two. -/
theorem clusterCreate_prefixes_error_witness :
    remoteCalls (clusterCreate (okWorld [] .confirmed) sampleConstants demoFlags ()).trace
      = [.NetworkAcquire (nar demoFlags)] ∧
    remoteCalls (clusterCreate (okWorld ["10.0.0.0/22", "10.0.4.0/22"] .confirmed)
      sampleConstants demoFlags ()).trace = [.NetworkAcquire (nar demoFlags)] :=
  ⟨(clusterCreate_prefixes_error (okWorld [] .confirmed) sampleConstants demoFlags () ()
      ⟨⟨[]⟩⟩ rfl (by decide)).2.1,
   (clusterCreate_prefixes_error (okWorld ["10.0.0.0/22", "10.0.4.0/22"] .confirmed)
      sampleConstants demoFlags () () ⟨⟨["10.0.0.0/22", "10.0.4.0/22"]⟩⟩ rfl (by decide)).2.1⟩

/-- With one acquired prefix, `clusterCreate` goes on to `CreateShoot` with the
document `scr` built from that prefix. -/
theorem clusterCreate_remoteCalls_of_one {σ : Type} (w : World σ) (c : Constants)
    (viper : Flags) (s s1 : σ) (nw : NetworkAcquireResponse) (p : String)
    (hacq : w.NetworkAcquire (nar viper) s = (.ok nw, s1))
    (h : nw.Network.Prefixes = [p]) :
    remoteCalls (clusterCreate w c viper s).trace =
      [.NetworkAcquire (nar viper), .CreateShoot (scr c viper p)] := by
  simp only [clusterCreate, hacq]
  have h1 : ¬ nw.Network.Prefixes.length ≠ 1 := by simp [h]
  simp only [h1, dite_false, h]
  simp only [List.getElem_cons_zero]
  cases hc : w.CreateShoot (scr c viper p) s1 with
  | mk r s2 =>
    cases r with
    | error e => simp [remoteCalls, Call.isRemote]
    | ok shoot => simp [remoteCalls, Call.isRemote]

/-- C2: when network acquisition succeeds with exactly one prefix, the remote
calls of `clusterCreate` are `NetworkAcquire` followed by `CreateShoot` on a
document whose single worker has the machine type the registry gives for
(partition, "worker"), whose firewall size is what the registry gives for
(partition, "firewall"), both for the one `partition` parameter, and whose node
network is the sole acquired prefix. -/
theorem clusterCreate_document_lookups {σ : Type} (w : World σ) (c : Constants)
    (viper : Flags) (s s1 : σ) (nw : NetworkAcquireResponse) (p : String)
    (hacq : w.NetworkAcquire (nar viper) s = (.ok nw, s1))
    (h : nw.Network.Prefixes = [p]) :
    ∃ doc : ShootCreateRequest,
      remoteCalls (clusterCreate w c viper s).trace =
        [.NetworkAcquire (nar viper), .CreateShoot doc] ∧
      doc.Workers.map (fun wk => wk.MachineType) =
        [machineTypeOf c.DefaultMachineTypesOfPartition viper.partition "worker"] ∧
      doc.FirewallSize =
        machineTypeOf c.DefaultMachineTypesOfPartition viper.partition "firewall" ∧
      doc.NodeNetwork = p :=
  ⟨scr c viper p, clusterCreate_remoteCalls_of_one w c viper s s1 nw p hacq h, rfl, rfl, rfl⟩

/-- Evaluation of C2 on the spec scenario with one acquired prefix. -/
theorem clusterCreate_document_lookups_witness :
    ∃ doc : ShootCreateRequest,
      remoteCalls (clusterCreate (okWorld ["10.0.0.0/22"] .confirmed) sampleConstants
        demoFlags ()).trace = [.NetworkAcquire (nar demoFlags), .CreateShoot doc] ∧
      doc.Workers.map (fun wk => wk.MachineType) =
        [machineTypeOf sampleConstants.DefaultMachineTypesOfPartition "nbg-w8101" "worker"] ∧
      doc.FirewallSize =
        machineTypeOf sampleConstants.DefaultMachineTypesOfPartition "nbg-w8101" "firewall" ∧
      doc.NodeNetwork = "10.0.0.0/22" :=
  clusterCreate_document_lookups (okWorld ["10.0.0.0/22"] .confirmed) sampleConstants
    demoFlags () () ⟨⟨["10.0.0.0/22"]⟩⟩ "10.0.0.0/22" rfl rfl

/-- If every remote step before the last one of a trace succeeded, and the
error of a last remote step is what `err` reports, then a failed remote step of
the trace is its last step and `err` is its error. -/
theorem failFast_of (t : List Step) (err : Option GoError)
    (h1 : ∀ st ∈ t.dropLast, st.call.isRemote = true → st.failed = none)
    (h2 : ∀ st, t.getLast? = some st → st.call.isRemote = true →
      ∀ e, st.failed = some e → err = some e)
    (pre post : List Step) (st : Step) (e : GoError)
    (htr : t = pre ++ st :: post) (hrem : st.call.isRemote = true)
    (hfail : st.failed = some e) : err = some e ∧ post = [] := by
  subst htr
  rcases List.eq_nil_or_concat post with hp | ⟨post1, lst, hp⟩
  · subst hp
    exact ⟨h2 st (by simp) hrem e hfail, rfl⟩
  · exfalso
    subst hp
    have hmem : st ∈ (pre ++ st :: (post1.concat lst)).dropLast := by
      have : pre ++ st :: (post1.concat lst) = (pre ++ st :: post1) ++ [lst] := by simp
      rw [this, List.dropLast_concat]
      simp
    have := h1 st hmem hrem
    rw [hfail] at this
    cases this

/-- A failed remote call of `clusterCreate` is its last interaction and its error is returned. -/
theorem clusterCreate_failFast {σ : Type} (w : World σ) (c : Constants) (viper : Flags) (s : σ) :
    ∀ (pre post : List Step) (st : Step) (e : GoError),
    (clusterCreate w c viper s).trace = pre ++ st :: post →
    st.call.isRemote = true → st.failed = some e →
    (clusterCreate w c viper s).err = some e ∧ post = [] := by
  unfold clusterCreate
  split
  all_goals try (first | split | (dsimp only; split))
  all_goals try (first | split | (dsimp only; split))
  all_goals try (first | split | (dsimp only; split))
  all_goals
    intro pre post st e htr hrem hfail
    refine failFast_of _ _ ?_ ?_ pre post st e htr hrem hfail
    all_goals simp [Call.isRemote]

/-- A failed remote call of `clusterList` is its last interaction and its error is returned. -/
theorem clusterList_failFast {σ : Type} (w : World σ) (s : σ) :
    ∀ (pre post : List Step) (st : Step) (e : GoError),
    (clusterList w s).trace = pre ++ st :: post →
    st.call.isRemote = true → st.failed = some e →
    (clusterList w s).err = some e ∧ post = [] := by
  unfold clusterList
  split
  all_goals try (first | split | (dsimp only; split))
  all_goals
    intro pre post st e htr hrem hfail
    refine failFast_of _ _ ?_ ?_ pre post st e htr hrem hfail
    all_goals simp [Call.isRemote]

/-- A failed remote call of `clusterCredentials` is its last interaction and its error is returned. -/
theorem clusterCredentials_failFast {σ : Type} (w : World σ) (args : List String) (s : σ) :
    ∀ (pre post : List Step) (st : Step) (e : GoError),
    (clusterCredentials w args s).trace = pre ++ st :: post →
    st.call.isRemote = true → st.failed = some e →
    (clusterCredentials w args s).err = some e ∧ post = [] := by
  unfold clusterCredentials
  split
  all_goals try (first | split | (dsimp only; split))
  all_goals try (first | split | (dsimp only; split))
  all_goals
    intro pre post st e htr hrem hfail
    refine failFast_of _ _ ?_ ?_ pre post st e htr hrem hfail
    all_goals simp [Call.isRemote]

/-- A failed remote call of `clusterDelete` is its last interaction and its error is returned. -/
theorem clusterDelete_failFast {σ : Type} (w : World σ) (args : List String) (s : σ) :
    ∀ (pre post : List Step) (st : Step) (e : GoError),
    (clusterDelete w args s).trace = pre ++ st :: post →
    st.call.isRemote = true → st.failed = some e →
    (clusterDelete w args s).err = some e ∧ post = [] := by
  unfold clusterDelete
  split
  all_goals try (first | split | (dsimp only; split))
  all_goals try (first | split | (dsimp only; split))
  all_goals try (first | split | (dsimp only; split))
  all_goals try (first | split | (dsimp only; split))
  all_goals try (first | split | (dsimp only; split))
  all_goals
    intro pre post st e htr hrem hfail
    refine failFast_of _ _ ?_ ?_ pre post st e htr hrem hfail
    all_goals simp [Call.isRemote]

/-- A failed remote call of `clusterDescribe` is its last interaction and its error is returned. -/
theorem clusterDescribe_failFast {σ : Type} (w : World σ) (args : List String) (s : σ) :
    ∀ (pre post : List Step) (st : Step) (e : GoError),
    (clusterDescribe w args s).trace = pre ++ st :: post →
    st.call.isRemote = true → st.failed = some e →
    (clusterDescribe w args s).err = some e ∧ post = [] := by
  unfold clusterDescribe
  split
  all_goals try (first | split | (dsimp only; split))
  all_goals try (first | split | (dsimp only; split))
  all_goals
    intro pre post st e htr hrem hfail
    refine failFast_of _ _ ?_ ?_ pre post st e htr hrem hfail
    all_goals simp [Call.isRemote]

/-- A failed remote call of `clusterInputs` is its last interaction and its error is returned. -/
theorem clusterInputs_failFast {σ : Type} (w : World σ) (s : σ) :
    ∀ (pre post : List Step) (st : Step) (e : GoError),
    (clusterInputs w s).trace = pre ++ st :: post →
    st.call.isRemote = true → st.failed = some e →
    (clusterInputs w s).err = some e ∧ post = [] := by
  unfold clusterInputs
  split
  all_goals try (first | split | (dsimp only; split))
  all_goals
    intro pre post st e htr hrem hfail
    refine failFast_of _ _ ?_ ?_ pre post st e htr hrem hfail
    all_goals simp [Call.isRemote]

/-- A failed remote call of a command function is its last interaction and its
error is returned. -/
theorem body_failFast {σ : Type} (w : World σ) (c : Constants) (viper : Flags)
    (cmd : Command) (s : σ) :
    ∀ (pre post : List Step) (st : Step) (e : GoError),
    (cmd.body w c viper s).trace = pre ++ st :: post →
    st.call.isRemote = true → st.failed = some e →
    (cmd.body w c viper s).err = some e ∧ post = [] := by
  cases cmd with
  | create => exact clusterCreate_failFast w c viper s
  | list => exact clusterList_failFast w s
  | delete args => exact clusterDelete_failFast w args s
  | describe args => exact clusterDescribe_failFast w args s
  | credentials args => exact clusterCredentials_failFast w args s
  | inputs => exact clusterInputs_failFast w s

/-- After a successful `initGardener`, a `RunE` is the `NewGardener` step followed
by the run of the command function. -/
theorem runE_of_init {σ : Type} (w : World σ) (c : Constants) (viper : Flags)
    (kubeconfig : String) (cmd : Command) (s s0 : σ)
    (hinit : w.NewGardener kubeconfig s = (none, s0)) :
    runE w c viper kubeconfig cmd s =
      ⟨(cmd.body w c viper s0).err,
       ⟨.NewGardener kubeconfig, none⟩ :: (cmd.body w c viper s0).trace,
       (cmd.body w c viper s0).state, (cmd.body w c viper s0).exited⟩ := by
  simp [runE, initGardener, hinit]

/-- When `NewGardener` fails, `log.Fatal` ends the process: the `RunE` does not
return and no remote call is made. -/
theorem runE_of_fatal {σ : Type} (w : World σ) (c : Constants) (viper : Flags)
    (kubeconfig : String) (cmd : Command) (s s0 : σ) (err : GoError)
    (hinit : w.NewGardener kubeconfig s = (some err, s0)) :
    runE w c viper kubeconfig cmd s =
      ⟨none, [⟨.NewGardener kubeconfig, some err⟩, ⟨.LogFatal err, none⟩], s0, true⟩ := by
  simp [runE, initGardener, hinit]

/-- A failed remote call of a `RunE` is its last interaction and its error is
returned. -/
theorem runE_failFast {σ : Type} (w : World σ) (c : Constants) (viper : Flags)
    (kubeconfig : String) (cmd : Command) (s : σ) :
    ∀ (pre post : List Step) (st : Step) (e : GoError),
    (runE w c viper kubeconfig cmd s).trace = pre ++ st :: post →
    st.call.isRemote = true → st.failed = some e →
    (runE w c viper kubeconfig cmd s).err = some e ∧ post = [] := by
  intro pre post st e htr hrem hfail
  cases hng : w.NewGardener kubeconfig s with
  | mk r s0 =>
    cases r with
    | some err =>
      rw [runE_of_fatal w c viper kubeconfig cmd s s0 err hng] at htr
      exfalso
      rcases pre with _ | ⟨x, pre⟩
      · simp at htr
        obtain ⟨h1, _⟩ := htr
        rw [← h1] at hrem
        simp [Call.isRemote] at hrem
      · rcases pre with _ | ⟨y, pre⟩
        · simp at htr
          obtain ⟨_, h1, _⟩ := htr
          rw [← h1] at hrem
          simp [Call.isRemote] at hrem
        · simp at htr
    | none =>
      rw [runE_of_init w c viper kubeconfig cmd s s0 hng] at htr ⊢
      rcases pre with _ | ⟨x, pre⟩
      · exfalso
        simp at htr
        obtain ⟨h1, _⟩ := htr
        rw [← h1] at hrem
        simp [Call.isRemote] at hrem
      · simp only [List.cons_append, List.cons.injEq] at htr
        exact body_failFast w c viper cmd s0 pre post st e htr.2 hrem hfail

/-- With one acquired prefix and a failing `CreateShoot`, `clusterCreate` returns
the error of `CreateShoot` right after that call. -/
theorem clusterCreate_of_createShoot_error {σ : Type} (w : World σ) (c : Constants)
    (viper : Flags) (s s1 s2 : σ) (nw : NetworkAcquireResponse) (p : String) (e : GoError)
    (hacq : w.NetworkAcquire (nar viper) s = (.ok nw, s1))
    (h : nw.Network.Prefixes = [p])
    (hcs : w.CreateShoot (scr c viper p) s1 = (.error e, s2)) :
    clusterCreate w c viper s =
      ⟨some e, [⟨.NetworkAcquire (nar viper), none⟩, ⟨.CreateShoot (scr c viper p), some e⟩],
        s2, false⟩ := by
  simp only [clusterCreate, hacq]
  have h1 : ¬ nw.Network.Prefixes.length ≠ 1 := by simp [h]
  simp only [h1, dite_false, h]
  simp only [List.getElem_cons_zero]
  rw [hcs]
  simp

/-- C6: in every command (create, list, delete, describe, credentials, inputs),
run through its `RunE` after a successful `initGardener`, each remote call that
the collaborator answers with an error `e` ends the command: the command returns
exactly `e`, and the failed call is the last entry of its trace, so no further
remote call is issued.  This holds for `NetworkAcquire` and `CreateShoot` in
create, `ListShoots` in list, `ShootCredentials` in credentials, `GetShoot` in
delete and in describe, `DeleteShoot` in delete, and `ShootConstraints` in
inputs; and in any run a step recorded as a failed remote call is the last step
and its error is the result.  In particular, when `NetworkAcquire` fails,
`clusterCreate` returns that error unchanged and its trace is the one failed
`NetworkAcquire` step, without any `CreateShoot`. -/
theorem remote_failure_aborts {σ : Type} (w : World σ) (c : Constants) (viper : Flags)
    (kubeconfig : String) (s s0 : σ)
    (hinit : w.NewGardener kubeconfig s = (none, s0)) :
    (∀ (e : GoError) (s1 : σ), w.NetworkAcquire (nar viper) s0 = (.error e, s1) →
      runE w c viper kubeconfig .create s =
        ⟨some e, [⟨.NewGardener kubeconfig, none⟩, ⟨.NetworkAcquire (nar viper), some e⟩],
          s1, false⟩) ∧
    (∀ (nw : NetworkAcquireResponse) (p : String) (e : GoError) (s1 s2 : σ),
      w.NetworkAcquire (nar viper) s0 = (.ok nw, s1) → nw.Network.Prefixes = [p] →
      w.CreateShoot (scr c viper p) s1 = (.error e, s2) →
      runE w c viper kubeconfig .create s =
        ⟨some e, [⟨.NewGardener kubeconfig, none⟩, ⟨.NetworkAcquire (nar viper), none⟩,
          ⟨.CreateShoot (scr c viper p), some e⟩], s2, false⟩) ∧
    (∀ (e : GoError) (s1 : σ), w.ListShoots s0 = (.error e, s1) →
      runE w c viper kubeconfig .list s =
        ⟨some e, [⟨.NewGardener kubeconfig, none⟩, ⟨.ListShoots, some e⟩], s1, false⟩) ∧
    (∀ (a : String) (e : GoError) (s1 : σ), w.ShootCredentials a s0 = (.error e, s1) →
      runE w c viper kubeconfig (.credentials [a]) s =
        ⟨some e, [⟨.NewGardener kubeconfig, none⟩, ⟨.ShootCredentials a, some e⟩],
          s1, false⟩) ∧
    (∀ (a : String) (e : GoError) (s1 : σ), w.GetShoot a s0 = (.error e, s1) →
      runE w c viper kubeconfig (.delete [a]) s =
        ⟨some e, [⟨.NewGardener kubeconfig, none⟩, ⟨.GetShoot a, some e⟩], s1, false⟩ ∧
      runE w c viper kubeconfig (.describe [a]) s =
        ⟨some e, [⟨.NewGardener kubeconfig, none⟩, ⟨.GetShoot a, some e⟩], s1, false⟩) ∧
    (∀ (a : String) (shoot : Shoot) (perr : Option GoError) (e : GoError) (s1 s2 s3 s4 : σ),
      w.GetShoot a s0 = (.ok shoot, s1) → w.Print (.shoot shoot) s1 = (perr, s2) →
      w.Prompt deletePrompt s2 = (.confirmed, s3) → w.DeleteShoot a s3 = (.error e, s4) →
      runE w c viper kubeconfig (.delete [a]) s =
        ⟨some e, [⟨.NewGardener kubeconfig, none⟩, ⟨.GetShoot a, none⟩,
          ⟨.Print (.shoot shoot), perr⟩, ⟨.Prompt deletePrompt .confirmed, none⟩,
          ⟨.DeleteShoot a, some e⟩], s4, false⟩) ∧
    (∀ (e : GoError) (s1 : σ), w.ShootConstraints s0 = (.error e, s1) →
      runE w c viper kubeconfig .inputs s =
        ⟨some e, [⟨.NewGardener kubeconfig, none⟩, ⟨.ShootConstraints, some e⟩],
          s1, false⟩) ∧
    (∀ (cmd : Command) (pre post : List Step) (st : Step) (e : GoError),
      (runE w c viper kubeconfig cmd s).trace = pre ++ st :: post →
      st.call.isRemote = true → st.failed = some e →
      (runE w c viper kubeconfig cmd s).err = some e ∧ post = []) ∧
    (∀ (e : GoError) (t t1 : σ), w.NetworkAcquire (nar viper) t = (.error e, t1) →
      (clusterCreate w c viper t).err = some e ∧
      (clusterCreate w c viper t).trace = [⟨.NetworkAcquire (nar viper), some e⟩]) := by
  refine ⟨?_, ?_, ?_, ?_, ?_, ?_, ?_, ?_, ?_⟩
  · intro e s1 h
    rw [runE_of_init w c viper kubeconfig _ s s0 hinit]
    simp [Command.body, clusterCreate, h]
  · intro nw p e s1 s2 hacq hp hcs
    rw [runE_of_init w c viper kubeconfig _ s s0 hinit]
    simp [Command.body, clusterCreate_of_createShoot_error w c viper s0 s1 s2 nw p e hacq hp hcs]
  · intro e s1 h
    rw [runE_of_init w c viper kubeconfig _ s s0 hinit]
    simp [Command.body, clusterList, h]
  · intro a e s1 h
    rw [runE_of_init w c viper kubeconfig _ s s0 hinit]
    simp [Command.body, clusterCredentials, clusterID, h]
  · intro a e s1 h
    rw [runE_of_init w c viper kubeconfig _ s s0 hinit,
      runE_of_init w c viper kubeconfig _ s s0 hinit]
    simp [Command.body, clusterDelete, clusterDescribe, clusterID, h]
  · intro a shoot perr e s1 s2 s3 s4 hget hpr hpm hdel
    rw [runE_of_init w c viper kubeconfig _ s s0 hinit]
    simp [Command.body, clusterDelete, clusterID, hget, hpr, hpm, hdel]
  · intro e s1 h
    rw [runE_of_init w c viper kubeconfig _ s s0 hinit]
    simp [Command.body, clusterInputs, h]
  · intro cmd
    exact runE_failFast w c viper kubeconfig cmd s
  · intro e t t1 h
    simp [clusterCreate, h]

/-- Evaluation of C6: a failing `DeleteShoot` ends `delete`, and a failing
`NetworkAcquire` ends `create`, each with the error of the call. -/
theorem remote_failure_aborts_witness :
    runE (failWorld ⟨"boom"⟩) sampleConstants demoFlags "kubeconfig" (.delete ["c1"]) () =
      ⟨some ⟨"boom"⟩, [⟨.NewGardener "kubeconfig", none⟩, ⟨.GetShoot "c1", none⟩,
        ⟨.Print (.shoot ⟨"c1"⟩), none⟩, ⟨.Prompt deletePrompt .confirmed, none⟩,
        ⟨.DeleteShoot "c1", some ⟨"boom"⟩⟩], (), false⟩ ∧
    runE (failWorld ⟨"boom"⟩) sampleConstants demoFlags "kubeconfig" .create () =
      ⟨some ⟨"boom"⟩, [⟨.NewGardener "kubeconfig", none⟩,
        ⟨.NetworkAcquire (nar demoFlags), some ⟨"boom"⟩⟩], (), false⟩ :=
  ⟨(remote_failure_aborts (failWorld ⟨"boom"⟩) sampleConstants demoFlags "kubeconfig" () ()
      rfl).2.2.2.2.2.1 "c1" ⟨"c1"⟩ none ⟨"boom"⟩ () () () () rfl rfl rfl rfl,
   (remote_failure_aborts (failWorld ⟨"boom"⟩) sampleConstants demoFlags "kubeconfig" () ()
      rfl).1 ⟨"boom"⟩ () rfl⟩

/-- C7, evaluated where the code breaks it: `cluster create --name ""
--description d --owner alice --project p1 --partition nbg-w8101`.  The flag
`name` is among those `init` marks required, and here it is empty; yet
`clusterCreate` raises no validation error: it returns no error and issues both
`NetworkAcquire`, with the empty name, and `CreateShoot`, also when run through
its `RunE`. -/
theorem clusterCreate_empty_name_not_rejected :
    "name" ∈ requiredFlags ∧ emptyNameFlags.name = "" ∧
    (clusterCreate (okWorld ["10.0.0.0/22"] .confirmed) sampleConstants emptyNameFlags ()).err
      = none ∧
    (clusterCreate (okWorld ["10.0.0.0/22"] .confirmed) sampleConstants emptyNameFlags ()).exited
      = false ∧
    remoteCalls
      (clusterCreate (okWorld ["10.0.0.0/22"] .confirmed) sampleConstants emptyNameFlags ()).trace
      = [.NetworkAcquire ⟨"d", "", "nbg-w8101", "p1"⟩,
         .CreateShoot (scr sampleConstants emptyNameFlags "10.0.0.0/22")] ∧
    remoteCalls
      (runE (okWorld ["10.0.0.0/22"] .confirmed) sampleConstants emptyNameFlags "kubeconfig"
        .create ()).trace
      = [.NetworkAcquire ⟨"d", "", "nbg-w8101", "p1"⟩,
         .CreateShoot (scr sampleConstants emptyNameFlags "10.0.0.0/22")] := by
  refine ⟨by decide, rfl, rfl, rfl, ?_, ?_⟩
  · decide
  · decide

/-- C8, as the code has it: a partition without an entry in the registry is not
rejected.  When network acquisition succeeds with one prefix, `CreateShoot` is
invoked with a document whose firewall size and whose worker machine type are
both the empty string. -/
theorem clusterCreate_unknown_partition {σ : Type} (w : World σ) (c : Constants)
    (viper : Flags) (s s1 : σ) (nw : NetworkAcquireResponse) (p : String)
    (hunknown : c.DefaultMachineTypesOfPartition viper.partition = none)
    (hacq : w.NetworkAcquire (nar viper) s = (.ok nw, s1))
    (h : nw.Network.Prefixes = [p]) :
    ∃ doc : ShootCreateRequest,
      remoteCalls (clusterCreate w c viper s).trace =
        [.NetworkAcquire (nar viper), .CreateShoot doc] ∧
      doc.FirewallSize = "" ∧
      doc.Workers.map (fun wk => wk.MachineType) = [""] := by
  refine ⟨scr c viper p, clusterCreate_remoteCalls_of_one w c viper s s1 nw p hacq h, ?_, ?_⟩
  · simp [scr, machineTypeOf, hunknown]
  · simp [scr, machineTypeOf, hunknown]

/-- Evaluation of the amended C8 on the unknown partition "fra-equ01". -/
theorem clusterCreate_unknown_partition_witness :
    ∃ doc : ShootCreateRequest,
      remoteCalls (clusterCreate (okWorld ["10.0.0.0/22"] .confirmed) sampleConstants
        unknownPartitionFlags ()).trace =
        [.NetworkAcquire (nar unknownPartitionFlags), .CreateShoot doc] ∧
      doc.FirewallSize = "" ∧
      doc.Workers.map (fun wk => wk.MachineType) = [""] :=
  clusterCreate_unknown_partition (okWorld ["10.0.0.0/22"] .confirmed) sampleConstants
    unknownPartitionFlags () () ⟨⟨["10.0.0.0/22"]⟩⟩ "10.0.0.0/22" rfl rfl rfl

/-- C8 fails as stated: for the partition "fra-equ01", which the registry does
not know, `clusterCreate` returns no error, and the document it hands to
`CreateShoot` has an empty firewall size and an empty worker machine type. -/
theorem clusterCreate_unknown_partition_not_rejected :
    sampleConstants.DefaultMachineTypesOfPartition unknownPartitionFlags.partition = none ∧
    (clusterCreate (okWorld ["10.0.0.0/22"] .confirmed) sampleConstants
      unknownPartitionFlags ()).err = none ∧
    remoteCalls (clusterCreate (okWorld ["10.0.0.0/22"] .confirmed) sampleConstants
      unknownPartitionFlags ()).trace =
      [.NetworkAcquire (nar unknownPartitionFlags),
       .CreateShoot (scr sampleConstants unknownPartitionFlags "10.0.0.0/22")] ∧
    (scr sampleConstants unknownPartitionFlags "10.0.0.0/22").FirewallSize = "" ∧
    (scr sampleConstants unknownPartitionFlags "10.0.0.0/22").Workers.map
      (fun wk => wk.MachineType) = [""] := by
  refine ⟨rfl, rfl, by decide, by decide, by decide⟩

/-- C9, evaluated where the code breaks it: `clusterDelete` on `["c1"]` in a world
whose first `printer.Print` fails.  The failure of printing the fetched record
is recorded in the trace, yet `DeleteShoot` is issued and the command returns
no error. -/
theorem clusterDelete_drops_print_error :
    (clusterDelete printFailsWorld ["c1"] 0).err = none ∧
    (clusterDelete printFailsWorld ["c1"] 0).trace =
      [⟨.GetShoot "c1", none⟩,
       ⟨.Print (.shoot ⟨"c1"⟩), some ⟨"write failed"⟩⟩,
       ⟨.Prompt "Press Enter to delete above cluster." .confirmed, none⟩,
       ⟨.DeleteShoot "c1", none⟩,
       ⟨.Print (.shoot ⟨"c1"⟩), none⟩] ∧
    (clusterDelete printFailsWorld ["c1"] 0).exited = false := by
  refine ⟨rfl, ?_, rfl⟩
  decide

/-- A `clusterCreate` that returns no error has acquired exactly one prefix. -/
theorem clusterCreate_ok_acquired {σ : Type} (w : World σ) (c : Constants) (viper : Flags)
    (s : σ) (hok : (clusterCreate w c viper s).err = none) :
    ∃ (nw : NetworkAcquireResponse) (s1 : σ) (p : String),
      w.NetworkAcquire (nar viper) s = (.ok nw, s1) ∧ nw.Network.Prefixes = [p] := by
  cases hacq : w.NetworkAcquire (nar viper) s with
  | mk r s1 =>
    cases r with
    | error e => simp [clusterCreate, hacq] at hok
    | ok nw =>
      by_cases hlen : nw.Network.Prefixes.length = 1
      · obtain ⟨p, hp⟩ := List.length_eq_one.mp hlen
        exact ⟨nw, s1, p, rfl, hp⟩
      · simp [clusterCreate, hacq, hlen] at hok

/-- C10: whenever `clusterCreate` returns no error, the document it passed to
`CreateShoot` has `CreatedBy`, `Tenant` and `Owner` equal to the supplied owner;
exactly one worker, named "default-worker", with the supplied minsize, maxsize,
maxsurge and maxunavailable and the default volume type and size; `Zones` equal
to `[partition]`; `AdditionalNetworks` equal to the supplied external networks;
auto-update off for kubernetes version and machine image; and the window
220000+0100 to 233000+0100.  For the scenario parameters (name "demo",
description "d", owner "alice", project "p1", partition "nbg-w8101", the rest
at the flag defaults) this gives min = max = 1, maxsurge = maxunavailable = 1,
additional networks ["internet"] and zones ["nbg-w8101"]. -/
theorem clusterCreate_document_fields {σ : Type} (w : World σ) (c : Constants)
    (viper : Flags) (s : σ) (hok : (clusterCreate w c viper s).err = none) :
    ∃ (doc : ShootCreateRequest) (wk : Worker),
      remoteCalls (clusterCreate w c viper s).trace =
        [.NetworkAcquire (nar viper), .CreateShoot doc] ∧
      doc.CreatedBy = viper.owner ∧ doc.Tenant = viper.owner ∧ doc.Owner = viper.owner ∧
      doc.Workers = [wk] ∧ wk.Name = "default-worker" ∧
      wk.AutoScalerMin = viper.minsize ∧ wk.AutoScalerMax = viper.maxsize ∧
      wk.MaxSurge = viper.maxsurge ∧ wk.MaxUnavailable = viper.maxunavailable ∧
      wk.VolumeType = c.DefaultVolumeType ∧ wk.VolumeSize = c.DefaultVolumeSize ∧
      doc.Zones = [viper.partition] ∧
      doc.AdditionalNetworks = viper.externalNetworks ∧
      doc.Maintenance.AutoUpdate = some ⟨false, false⟩ ∧
      doc.Maintenance.TimeWindow = some ⟨"220000+0100", "233000+0100"⟩ ∧
      (viper = demoFlags →
        wk.AutoScalerMin = 1 ∧ wk.AutoScalerMax = 1 ∧
        wk.MaxSurge = 1 ∧ wk.MaxUnavailable = 1 ∧
        doc.AdditionalNetworks = ["internet"] ∧ doc.Zones = ["nbg-w8101"]) := by
  obtain ⟨nw, s1, p, hacq, hp⟩ := clusterCreate_ok_acquired w c viper s hok
  refine ⟨scr c viper p, _, clusterCreate_remoteCalls_of_one w c viper s s1 nw p hacq hp,
    rfl, rfl, rfl, rfl, rfl, rfl, rfl, rfl, rfl, rfl, rfl, rfl, rfl, rfl, rfl, ?_⟩
  intro hv
  subst hv
  exact ⟨rfl, rfl, rfl, rfl, rfl, rfl⟩

/-- Evaluation of C10 on the spec scenario. -/
theorem clusterCreate_document_fields_witness :
    ∃ (doc : ShootCreateRequest) (wk : Worker),
      remoteCalls (clusterCreate (okWorld ["10.0.0.0/22"] .confirmed) sampleConstants
        demoFlags ()).trace = [.NetworkAcquire (nar demoFlags), .CreateShoot doc] ∧
      doc.Owner = "alice" ∧ doc.Workers = [wk] ∧
      wk.AutoScalerMin = 1 ∧ wk.AutoScalerMax = 1 ∧ wk.MaxSurge = 1 ∧ wk.MaxUnavailable = 1 ∧
      doc.AdditionalNetworks = ["internet"] ∧ doc.Zones = ["nbg-w8101"] := by
  obtain ⟨doc, wk, h1, _, _, h4, h5, _, _, _, _, _, _, _, _, _, _, _, h17⟩ :=
    clusterCreate_document_fields (okWorld ["10.0.0.0/22"] .confirmed) sampleConstants
      demoFlags () rfl
  obtain ⟨a, b, c, d, e, f⟩ := h17 rfl
  exact ⟨doc, wk, h1, h4, h5, a, b, c, d, e, f⟩

/-- An argument list that `clusterID` accepts has exactly one entry. -/
theorem clusterID_accepts (verb : String) (args : List String)
    (h : (clusterID verb args).2 = none) : ∃ a, args = [a] := by
  match args, h with
  | [], h => simp [clusterID] at h
  | [a], _ => exact ⟨a, rfl⟩
  | _ :: _ :: _, h => simp [clusterID] at h

/-- In a run of `clusterDelete` on one identifier, a `DeleteShoot` step is the
fourth step, after `GetShoot` on that identifier, the print of the fetched
record and a confirmation prompt that returned. -/
theorem clusterDelete_delete_step {σ : Type} (w : World σ) (a : String) (s : σ)
    (st : Step) (hst : st ∈ (clusterDelete w [a] s).trace)
    (uid : String) (hcall : st.call = .DeleteShoot uid) :
    ∃ (shoot : Shoot) (perr : Option GoError) (rest : List Step),
      (clusterDelete w [a] s).trace =
        ⟨.GetShoot uid, none⟩ :: ⟨.Print (.shoot shoot), perr⟩ ::
          ⟨.Prompt deletePrompt .confirmed, none⟩ :: st :: rest := by
  cases hget : w.GetShoot a s with
  | mk r s1 =>
    cases r with
    | error e =>
      simp [clusterDelete, clusterID, hget] at hst
      subst hst
      simp at hcall
    | ok shoot =>
      cases hpr : w.Print (.shoot shoot) s1 with
      | mk perr s2 =>
        cases hpm : w.Prompt deletePrompt s2 with
        | mk answer s3 =>
          cases answer with
          | declined =>
            simp [clusterDelete, clusterID, hget, hpr, hpm] at hst
            rcases hst with h | h | h <;> subst h <;> simp at hcall
          | confirmed =>
            cases hdel : w.DeleteShoot a s3 with
            | mk r2 s4 =>
              cases r2 with
              | error e2 =>
                simp [clusterDelete, clusterID, hget, hpr, hpm, hdel] at hst ⊢
                rcases hst with h | h | h | h <;> subst h <;> simp at hcall
                subst hcall
                simp
              | ok shoot2 =>
                cases hpr2 : w.Print (.shoot shoot2) s4 with
                | mk perr2 s5 =>
                  simp [clusterDelete, clusterID, hget, hpr, hpm, hdel, hpr2] at hst ⊢
                  rcases hst with h | h | h | h | h <;> subst h <;> simp at hcall
                  subst hcall
                  simp

/-- C3: for every argument list that `clusterID` accepts, `GetShoot` receives the
value returned by `clusterID`, which is `args[0]`, the value `DeleteShoot`
receives.  When `GetShoot` fails, it is the only interaction and its error is
returned, so `DeleteShoot` is not called.  When the confirmation is declined,
the run ends at the prompt and the only remote call is `GetShoot`.  When it is
given, the interactions are `GetShoot`, the print of the fetched record, the
prompt and `DeleteShoot` on the same identifier, in this order, and the remote
calls are exactly `GetShoot` then `DeleteShoot`.  The confirmation is never
skipped: a `DeleteShoot` step in the trace is always the fourth step, after a
successful `GetShoot` on the same identifier, the print and a prompt that
returned. -/
theorem clusterDelete_get_then_delete {σ : Type} (w : World σ) (args : List String) (s : σ)
    (hacc : (clusterID "delete" args).2 = none) :
    (clusterID "delete" args).1 = args.headD "" ∧
    (∀ (e : GoError) (s1 : σ), w.GetShoot (args.headD "") s = (.error e, s1) →
      clusterDelete w args s =
        ⟨some e, [⟨.GetShoot (args.headD ""), some e⟩], s1, false⟩) ∧
    (∀ (shoot : Shoot) (perr : Option GoError) (s1 s2 s3 : σ),
      w.GetShoot (args.headD "") s = (.ok shoot, s1) →
      w.Print (.shoot shoot) s1 = (perr, s2) →
      w.Prompt deletePrompt s2 = (.declined, s3) →
      clusterDelete w args s =
        ⟨none, [⟨.GetShoot (args.headD ""), none⟩, ⟨.Print (.shoot shoot), perr⟩,
          ⟨.Prompt deletePrompt .declined, none⟩], s3, true⟩ ∧
      remoteCalls (clusterDelete w args s).trace = [.GetShoot (args.headD "")]) ∧
    (∀ (shoot : Shoot) (perr : Option GoError) (s1 s2 s3 : σ),
      w.GetShoot (args.headD "") s = (.ok shoot, s1) →
      w.Print (.shoot shoot) s1 = (perr, s2) →
      w.Prompt deletePrompt s2 = (.confirmed, s3) →
      ∃ (derr : Option GoError) (rest : List Step),
        (clusterDelete w args s).trace =
          ⟨.GetShoot (args.headD ""), none⟩ :: ⟨.Print (.shoot shoot), perr⟩ ::
            ⟨.Prompt deletePrompt .confirmed, none⟩ ::
            ⟨.DeleteShoot (args.headD ""), derr⟩ :: rest ∧
        remoteCalls (clusterDelete w args s).trace =
          [.GetShoot (args.headD ""), .DeleteShoot (args.headD "")]) ∧
    (∀ st ∈ (clusterDelete w args s).trace, ∀ (uid : String), st.call = .DeleteShoot uid →
      ∃ (shoot : Shoot) (perr : Option GoError) (rest : List Step),
        (clusterDelete w args s).trace =
          ⟨.GetShoot uid, none⟩ :: ⟨.Print (.shoot shoot), perr⟩ ::
            ⟨.Prompt deletePrompt .confirmed, none⟩ :: st :: rest) := by
  obtain ⟨a, rfl⟩ := clusterID_accepts "delete" args hacc
  refine ⟨rfl, ?_, ?_, ?_, ?_⟩
  · intro e s1 h
    simp only [List.headD_cons] at h
    simp [clusterDelete, clusterID, h]
  · intro shoot perr s1 s2 s3 hget hpr hpm
    simp only [List.headD_cons] at hget
    simp [clusterDelete, clusterID, hget, hpr, hpm, remoteCalls, Call.isRemote]
  · intro shoot perr s1 s2 s3 hget hpr hpm
    simp only [List.headD_cons] at hget
    cases hdel : w.DeleteShoot a s3 with
    | mk r s4 =>
      cases r with
      | error e =>
        exact ⟨some e, [], by
          simp [clusterDelete, clusterID, hget, hpr, hpm, hdel, remoteCalls, Call.isRemote]⟩
      | ok shoot2 =>
        cases hpr2 : w.Print (.shoot shoot2) s4 with
        | mk perr2 s5 =>
          exact ⟨none, [⟨.Print (.shoot shoot2), perr2⟩], by
            simp [clusterDelete, clusterID, hget, hpr, hpm, hdel, hpr2, remoteCalls,
              Call.isRemote]⟩
  · intro st hst uid hcall
    exact clusterDelete_delete_step w a s st hst uid hcall

/-- Evaluation of C3 on `["c1"]`: with the confirmation declined only `GetShoot`
is issued, with the confirmation given `GetShoot` then `DeleteShoot`. -/
theorem clusterDelete_get_then_delete_witness :
    remoteCalls (clusterDelete (okWorld [] .declined) ["c1"] ()).trace = [.GetShoot "c1"] ∧
    (∃ (derr : Option GoError) (rest : List Step),
      (clusterDelete (okWorld [] .confirmed) ["c1"] ()).trace =
        ⟨.GetShoot "c1", none⟩ :: ⟨.Print (.shoot ⟨"c1"⟩), none⟩ ::
          ⟨.Prompt deletePrompt .confirmed, none⟩ :: ⟨.DeleteShoot "c1", derr⟩ :: rest ∧
      remoteCalls (clusterDelete (okWorld [] .confirmed) ["c1"] ()).trace =
        [.GetShoot "c1", .DeleteShoot "c1"]) :=
  ⟨((clusterDelete_get_then_delete (okWorld [] .declined) ["c1"] () rfl).2.2.1
      ⟨"c1"⟩ none () () () rfl rfl rfl).2,
   (clusterDelete_get_then_delete (okWorld [] .confirmed) ["c1"] () rfl).2.2.2.1
      ⟨"c1"⟩ none () () () rfl rfl rfl⟩

end Cloudctl
